import Mathlib

/-!
Verification of the betting-simulation components in bj_components.py.

Cards are Python strings such as "2D", "10H", "JC", "AS"; the source indexes
`card[0]`, i.e. the first character of that string, viewed as a one-character
string.  Randomness (numpy draws) is passed in as explicit oracle arguments.
Python exceptions are modelled by an error sum type; a call of an unbound name
(NameError at runtime) is modelled by the `nameError` value at the point where
Python would raise it.
-/

deriving instance DecidableEq for Except

namespace BJ

/-- Python exceptions raised by the embedded code: TypeError and ValueError from
explicit raise statements, NameError from evaluating an unbound name. -/
inductive PyErr where
  | typeError
  | valueError
  | nameError
  deriving DecidableEq

/-- A Python value handed to Deck(num_decks, cut_card_loc): an int, a float
(modelled exactly as a rational), or a value of some other type. -/
inductive PyVal where
  | int (n : Int)
  | float (q : ℚ)
  | str (s : String)
  deriving DecidableEq

/-- isinstance(v, int). -/
def PyVal.isInt : PyVal → Bool
  | PyVal.int _ => true
  | _ => false

/-- isinstance(v, int) or isinstance(v, float). -/
def PyVal.isNum : PyVal → Bool
  | PyVal.int _ => true
  | PyVal.float _ => true
  | _ => false

/-- The numeric content of an int or float value. -/
def PyVal.toRat : PyVal → ℚ
  | PyVal.int n => (n : ℚ)
  | PyVal.float q => q
  | PyVal.str _ => 0

/-- The ranks, in source order range(2,11) followed by J, Q, K, A (line 19). -/
def deck_vals : List String :=
  ["2", "3", "4", "5", "6", "7", "8", "9", "10", "J", "Q", "K", "A"]

/-- Deck.one_deck (line 19): one card string per (suit, value) pair, suits in
order D, H, C, S, values in deck_vals order within each suit. -/
def one_deck : List String :=
  (["D", "H", "C", "S"].map (fun suit => deck_vals.map (fun v => v ++ suit))).flatten

/-- Deck.__init__ (lines 21-31).  Validates the argument types (line 22) and
ranges (line 24); afterwards line 28 evaluates the bare name one_deck, which is
a class attribute and not in scope inside the method body, so Python raises
NameError there for every argument pair that passes validation and full_deck is
never assigned.  The success payload (the full_deck list) is therefore never
produced. -/
def Deck.init (num_decks cut_card_loc : PyVal) : Except PyErr (List String) :=
  if ¬ (num_decks.isInt = true ∧ cut_card_loc.isNum = true) then
    Except.error PyErr.typeError
  else if ¬ (0 < num_decks.toRat ∧ num_decks.toRat < 9) ∨
      ¬ (mkRat 1 2 ≤ cut_card_loc.toRat ∧ cut_card_loc.toRat ≤ 2) then
    Except.error PyErr.valueError
  else
    Except.error PyErr.nameError

/-- Python list.insert for a non-negative index: an index at or beyond the
length appends at the end, which take/drop give for free. -/
def pyInsert (l : List String) (i : Nat) (x : String) : List String :=
  l.take i ++ x :: l.drop i

/-- Deck.shuffle (lines 33-41).  np.random.choice(full_deck, size=len(full_deck))
samples with replacement (replace defaults to True); the indices it drew are the
oracle argument choices, each below full_deck.length and choices.length =
full_deck.length for an actual numpy draw.  The cut card "0" is then inserted at
the drawn location (line 41); location here stands for the already-computed
int(np.random.uniform(.5, 1.5) * (52 * cut_card_loc)). -/
def shuffle (full_deck : List String) (choices : List Nat) (location : Nat) :
    List String :=
  pyInsert (choices.map (fun i => full_deck.getD i "")) location "0"

/-- Dealer.deal_card (lines 87-93): current_deck.pop() removes and returns the
LAST element (the top of the stack); popping an empty deck raises IndexError,
modelled as none. -/
def deal_card (current_deck : List String) : Option (String × List String) :=
  match current_deck.getLast? with
  | Option.none => Option.none
  | Option.some c => Option.some (c, current_deck.dropLast)

/-- card[0] in Python: the first character of the card string, as a
one-character string. -/
def card_first (card : String) : String :=
  String.singleton (card.toList.headD ' ')

/-- int(s) for the one-character digit strings the source feeds it
(int applied to a single decimal digit). -/
def py_int_str (s : String) : Int :=
  match s.toList with
  | [c] => (c.toNat : Int) - 48
  | _ => 0

/-- The per-card value from line 137 of Dealer.check_hand_total:
int(card[0]) if card[0] not in [A, J, Q, K] else 10 if card[0] in [J, Q, K]
else 1.  Note card[0] of "10H" is "1", a digit, so a ten contributes 1. -/
def card_val (card : String) : Int :=
  if card_first card ≠ "A" ∧ card_first card ≠ "J" ∧
      card_first card ≠ "Q" ∧ card_first card ≠ "K" then
    py_int_str (card_first card)
  else if card_first card = "J" ∨ card_first card = "Q" ∨ card_first card = "K" then
    10
  else
    1

/-- Dealer.check_hand_total (lines 128-152): values every card via card_val,
collects the values equal to 1 as aces, and if any exist returns sum + 10 when
that is at most 21, else the plain sum. -/
def check_hand_total (hand : List String) : Int :=
  let hand_vals := hand.map card_val
  let aces := hand_vals.filter (fun v => v == 1)
  let hand_sum := hand_vals.sum
  if aces.isEmpty then
    hand_sum
  else
    if hand_sum + 10 ≤ 21 then hand_sum + 10 else hand_sum

/-- Dealer.check_blackjack (lines 114-126).  hand[i][0] is a one-character
string; the membership test compares it against the literal list
["10", "J", "Q", "K"], whose first entry "10" has two characters and hence can
never match. -/
def check_blackjack (hand : List String) : Bool :=
  let h0 := card_first (hand.getD 0 "")
  let h1 := card_first (hand.getD 1 "")
  if (h0 = "A" ∧ (h1 = "10" ∨ h1 = "J" ∨ h1 = "Q" ∨ h1 = "K")) ∨
      (h1 = "A" ∧ (h0 = "10" ∨ h0 = "J" ∨ h0 = "Q" ∨ h0 = "K")) then
    true
  else
    false

/-- The Dealer fields used by the claims (lines 65-70); the deck is carried
separately by the shuffle/deal functions above. -/
structure Dealer where
  hit_on_soft17 : Bool
  min_bet : Int
  max_bet : Int
  current_hand : List String
  deriving DecidableEq

/-- Dealer.decide_next_move (lines 73-85): hit when the hand total is below 17,
stand otherwise.  The body reads nothing except the hand total; in particular
the stored hit_on_soft17 flag is never consulted. -/
def decide_next_move (d : Dealer) : String :=
  if check_hand_total d.current_hand < 17 then "hit" else "stand"

/-- The Player fields used by the claims (lines 172-180): previous_bet and
previous_outcome start as Python None, modelled as none. -/
structure Player where
  bank : Int
  current_bet : Int
  previous_bet : Option Int
  previous_outcome : Option String
  deriving DecidableEq

/-- Python truthiness of previous_bet: None and 0 are falsy. -/
def truthy_int : Option Int → Bool
  | Option.none => false
  | Option.some n => n != 0

/-- Python truthiness of previous_outcome: None and the empty string are falsy. -/
def truthy_str : Option String → Bool
  | Option.none => false
  | Option.some s => s != ""

/-- Player.check_bet_allowed (lines 227-248): False when the bank is below the
bet amount or the amount exceeds the dealer's max_bet, True otherwise. -/
def check_bet_allowed (p : Player) (bet_amt : Int) (d : Dealer) : Bool :=
  if p.bank < bet_amt ∨ bet_amt > d.max_bet then false else true

/-- Player.place_initial_bet (lines 250-291).  First round (previous_bet and
previous_outcome both falsy): commit min_bet with no check.  The win branch and
the loss branch with previous_bet == min_bet each evaluate the bare name
check_bet_allowed, which is a method and not in scope as a plain name, so
Python raises NameError there before any state change.  The loss branch with
previous_bet different from min_bet has no code at all, and any other outcome
matches no branch: both fall through and return with the player unchanged. -/
def place_initial_bet (p : Player) (d : Dealer) : Except PyErr Player :=
  if !truthy_int p.previous_bet && !truthy_str p.previous_outcome then
    Except.ok { p with current_bet := d.min_bet, bank := p.bank - d.min_bet }
  else if p.previous_outcome = Option.some "win" then
    Except.error PyErr.nameError
  else if p.previous_outcome = Option.some "loss" then
    if p.previous_bet = Option.some d.min_bet then
      Except.error PyErr.nameError
    else
      Except.ok p
  else
    Except.ok p

/-- Claim C1: check_hand_total is claimed to count a 10 card as 10.  In the code
card[0] of "10H" is the digit "1", so a ten contributes int("1") = 1 and is then
collected as an ace and promoted: the hand [10H, 5D] totals 16 where the claim
says 15, and the lone hand [10H] totals 11 where the claim says 10.  Face cards
and the ace promotion behave as claimed ([KH, 5D] = 15, [AH] = 11). -/
theorem check_hand_total_ten_as_one :
    check_hand_total ["10H", "5D"] = 16 ∧
    check_hand_total ["10H"] = 11 ∧
    check_hand_total ["KH", "5D"] = 15 ∧
    check_hand_total ["AH"] = 11 := by decide

/-- Claim C2: after a loss with previous_bet = 30 and min_bet = 15 the claim
requires the bet 45 to be committed, but the loss branch only has code for
previous_bet equal to min_bet, so the call returns with the player unchanged
and no bet placed; and after a win with previous_bet equal to min_bet the claim
requires min_bet to be committed, but the branch evaluates the unbound name
check_bet_allowed and raises NameError. -/
theorem place_initial_bet_progression_broken :
    place_initial_bet ⟨1000, 0, Option.some 30, Option.some "loss"⟩ ⟨true, 15, 1000, []⟩ =
      Except.ok ⟨1000, 0, Option.some 30, Option.some "loss"⟩ ∧
    place_initial_bet ⟨1000, 0, Option.some 15, Option.some "win"⟩ ⟨true, 15, 1000, []⟩ =
      Except.error PyErr.nameError := by decide

/-- Claim C3: shuffle is claimed to be a permutation of the full card sequence.
np.random.choice samples with replacement, so the draw that picks index 0 all
52 times is possible; on a one-deck shoe it yields 52 copies of "2D" plus the
cut marker: the length 53 part of the claim holds but "3D" is absent and "2D"
appears 52 times instead of once.  The first two conjuncts record that the
all-zero index draw is a well-formed np.random.choice outcome. -/
theorem shuffle_not_a_permutation :
    (List.replicate 52 (0 : Nat)).length = one_deck.length ∧
    (∀ i ∈ List.replicate 52 (0 : Nat), i < one_deck.length) ∧
    (shuffle one_deck (List.replicate 52 0) 13).length = 53 ∧
    (shuffle one_deck (List.replicate 52 0) 13).count "2D" = 52 ∧
    (shuffle one_deck (List.replicate 52 0) 13).count "3D" = 0 := by decide

/-- Claim C4: decide_next_move hits below 17 and stands on 17 or more as
claimed (16 hits, 18 stands), but the hit_on_soft17 flag is never read: on the
soft 17 hand [AH, 6D] with the flag enabled the code stands where the claim
says hit. -/
theorem decide_next_move_ignores_soft17_flag :
    check_hand_total ["AH", "6D"] = 17 ∧
    decide_next_move ⟨true, 15, 1000, ["AH", "6D"]⟩ = "stand" ∧
    decide_next_move ⟨true, 15, 1000, ["9H", "7D"]⟩ = "hit" ∧
    decide_next_move ⟨true, 15, 1000, ["9H", "9D"]⟩ = "stand" := by decide

/-- Claim C5: check_blackjack is claimed true on [10H, AD].  hand[0][0] is the
one-character string "1", which is not "A" and never equals the two-character
literal "10" in the membership list, so the code returns false; the ace-plus-
face cases behave as claimed. -/
theorem check_blackjack_misses_ten :
    check_blackjack ["10H", "AD"] = false ∧
    check_blackjack ["AH", "KD"] = true ∧
    check_blackjack ["AH", "9D"] = false := by decide

/-- Claim C6: the first-round bet is claimed to be validated by
check_bet_allowed before being committed.  With bank 10 and min_bet 15 the
check would return false, yet the first-round branch commits the bet with no
check at all, leaving the bank at -5. -/
theorem place_initial_bet_first_round_unchecked :
    check_bet_allowed ⟨10, 0, Option.none, Option.none⟩ 15 ⟨true, 15, 1000, []⟩ = false ∧
    place_initial_bet ⟨10, 0, Option.none, Option.none⟩ ⟨true, 15, 1000, []⟩ =
      Except.ok ⟨-5, 15, Option.none, Option.none⟩ := by decide

/-- Claim C7 counterexample: on the deck [5H, 0] the cut marker "0" is the top
(last) item, and deal_card returns it as the dealt item even though it is not
one of the 52 playing cards: no interception happens in deal_card. -/
theorem deal_card_returns_marker :
    deal_card ["5H", "0"] = Option.some ("0", ["5H"]) ∧ "0" ∉ one_deck := by decide

/-- Claim C7 amended: deal_card pops and returns the top item unconditionally;
whenever the cut-card marker "0" is on top of the drawable sequence it is
returned to the caller like any card, and detecting it is left to the caller. -/
theorem deal_card_pops_marker (l : List String) :
    deal_card (l ++ ["0"]) = Option.some ("0", l) := by
  simp [deal_card]

/-- Claim C8: constructing a shoe with valid arguments is claimed to succeed
and build the 52-per-deck sequence, but line 28 evaluates the unbound name
one_deck, so every valid argument pair raises NameError and construction never
succeeds; out-of-range or wrongly-typed arguments do fail with
ValueError/TypeError as claimed. -/
theorem deck_init_never_succeeds :
    Deck.init (PyVal.int 1) (PyVal.float 1) = Except.error PyErr.nameError ∧
    Deck.init (PyVal.int 6) (PyVal.float (mkRat 1 2)) = Except.error PyErr.nameError ∧
    Deck.init (PyVal.int 9) (PyVal.float 1) = Except.error PyErr.valueError ∧
    Deck.init (PyVal.int 1) (PyVal.float 3) = Except.error PyErr.valueError ∧
    Deck.init (PyVal.str "a") (PyVal.float 1) = Except.error PyErr.typeError := by decide

/-- Claim C9: check_bet_allowed is false exactly when the amount exceeds the
bank or exceeds max_bet, and its result never depends on the dealer's min_bet. -/
theorem check_bet_allowed_characterization (p : Player) (amt : Int) (d : Dealer) :
    (check_bet_allowed p amt d = false ↔ (amt > p.bank ∨ amt > d.max_bet)) ∧
    (∀ m : Int, check_bet_allowed p amt { d with min_bet := m } =
      check_bet_allowed p amt d) := by
  refine ⟨?_, fun m => rfl⟩
  unfold check_bet_allowed
  by_cases h : p.bank < amt ∨ amt > d.max_bet
  · rw [if_pos h]
    exact iff_of_true rfl (by omega)
  · rw [if_neg h]
    exact iff_of_false (by simp) (by omega)

/-- Claim C10: when previous_bet is truthy and previous_outcome is neither
"win" nor "loss" (for example "push"), place_initial_bet matches no branch and
returns with no error, no bet committed, and the player state unchanged. -/
theorem place_initial_bet_other_outcome_noop (p : Player) (d : Dealer)
    (hb : truthy_int p.previous_bet = true)
    (hw : p.previous_outcome ≠ Option.some "win")
    (hl : p.previous_outcome ≠ Option.some "loss") :
    place_initial_bet p d = Except.ok p := by
  unfold place_initial_bet
  rw [hb]
  simp [hw, hl]

/-- Claim C10 witness: a player with previous bet 30 and outcome "push" at a
15/1000 table is left exactly as it was. -/
theorem place_initial_bet_other_outcome_noop_witness :
    place_initial_bet ⟨1000, 0, Option.some 30, Option.some "push"⟩ ⟨true, 15, 1000, []⟩ =
      Except.ok ⟨1000, 0, Option.some 30, Option.some "push"⟩ :=
  place_initial_bet_other_outcome_noop _ _ (by decide) (by decide) (by decide)

end BJ
